import Mathlib

/-!
Verification of the playht_rs HTTP client core: a shallow embedding of the
error-envelope decoder (`src/error.rs`), the request dispatcher and streaming
relay (`src/api/mod.rs`), the request/response records (`src/api/job.rs`,
`src/api/stream.rs`, `src/api/voice.rs`, `src/api/tts.rs`) and the client
builder, together with theorems about them.
-/

namespace PlayhtRs

/-- Model of `serde_json::Value`. Objects are association lists with unique
keys (serde_json object maps); floating-point numbers are kept opaque as raw
bit payloads (`fnum`) since no property here depends on float arithmetic. -/
inductive Json where
  | null
  | bool (b : Bool)
  | num (n : Int)
  | fnum (bits : Nat)
  | str (s : String)
  | arr (elems : List Json)
  | obj (fields : List (String × Json))

/-- Model of `serde_json::Value::get(key)`: field lookup succeeds only on
objects. -/
def Json.get (v : Json) (key : String) : Option Json :=
  match v with
  | .obj fields => fields.lookup key
  | _ => none

/-- Model of `serde_json::Value::as_str()`. -/
def Json.asStr (v : Json) : Option String :=
  match v with
  | .str s => some s
  | _ => none

/-- `v.get(key).and_then(|x| x.as_str())`: the string field `key` of an
object, when present. Returns `none` whenever `v` is not an object. -/
def Json.strField (v : Json) (key : String) : Option String :=
  (v.get key).bind Json.asStr

/-- The error envelope `APIError` of `src/error.rs`. -/
inductive APIError where
  | Gen (error_message : String) (error_id : String)
  | Internal (message : String) (error : String)
  | RateLimit (msg : String)
deriving DecidableEq

/-- The `Deserialize` impl of `APIError` in `src/error.rs`: try
`error_message`/`error_id` string fields, then `message`/`error` string
fields, then a bare string, in that order; otherwise fail. -/
def APIError.deserialize (v : Json) : Except String APIError :=
  match v.strField "error_message", v.strField "error_id" with
  | some error_message, some error_id => .ok (.Gen error_message error_id)
  | _, _ =>
    match v.strField "message", v.strField "error" with
    | some message, some error => .ok (.Internal message error)
    | _, _ =>
      match v.asStr with
      | some s => .ok (.RateLimit s)
      | none => .error "Unknown API error format"

/-- Opaque model of a Rust floating-point value (f32/f64): raw bit payload
plus whether the value is finite, since no verified property depends on
float arithmetic but serialization does distinguish non-finite values. -/
structure FloatLit where
  bits : Nat
  finite : Bool
deriving DecidableEq

/-- JSON rendering of a float value: serde_json renders a non-finite float
(NaN or an infinity) as JSON `null`. -/
def FloatLit.serialize (x : FloatLit) : Json :=
  if x.finite then .fnum x.bits else .null

/-- `VoiceEngine` of `src/api/tts.rs`. -/
inductive VoiceEngine where
  | PlayHTV1
  | PlayHTV2
  | PlayHTV2Turbo
deriving DecidableEq

/-- `#[default]` variant of `VoiceEngine`. -/
def VoiceEngine.default : VoiceEngine := .PlayHTV2

/-- Serde rename strings of `VoiceEngine` (serialization). -/
def VoiceEngine.serialize : VoiceEngine → Json
  | .PlayHTV1 => .str "PlayHT1.0"
  | .PlayHTV2 => .str "PlayHT2.0"
  | .PlayHTV2Turbo => .str "PlayHT2.0-turbo"

/-- Serde rename strings of `VoiceEngine` (deserialization). -/
def VoiceEngine.deserialize : Json → Except String VoiceEngine
  | .str "PlayHT1.0" => .ok .PlayHTV1
  | .str "PlayHT2.0" => .ok .PlayHTV2
  | .str "PlayHT2.0-turbo" => .ok .PlayHTV2Turbo
  | _ => .error "unknown variant of VoiceEngine"

/-- `OutputFormat` of `src/api/tts.rs` (`rename_all = "lowercase"`). -/
inductive OutputFormat where
  | Mp3
  | Wav
  | Ogg
  | Flac
  | Mulav
deriving DecidableEq

/-- `#[default]` variant of `OutputFormat`. -/
def OutputFormat.default : OutputFormat := .Mp3

/-- Lowercase variant names of `OutputFormat` (serialization). -/
def OutputFormat.serialize : OutputFormat → Json
  | .Mp3 => .str "mp3"
  | .Wav => .str "wav"
  | .Ogg => .str "ogg"
  | .Flac => .str "flac"
  | .Mulav => .str "mulav"

/-- Lowercase variant names of `OutputFormat` (deserialization). -/
def OutputFormat.deserialize : Json → Except String OutputFormat
  | .str "mp3" => .ok .Mp3
  | .str "wav" => .ok .Wav
  | .str "ogg" => .ok .Ogg
  | .str "flac" => .ok .Flac
  | .str "mulav" => .ok .Mulav
  | _ => .error "unknown variant of OutputFormat"

/-- `Quality` of `src/api/tts.rs` (`rename_all = "lowercase"`). -/
inductive Quality where
  | Draft
  | Low
  | Medium
  | High
  | Premium
deriving DecidableEq

/-- `#[default]` variant of `Quality`. -/
def Quality.default : Quality := .Draft

/-- Lowercase variant names of `Quality` (serialization). -/
def Quality.serialize : Quality → Json
  | .Draft => .str "draft"
  | .Low => .str "low"
  | .Medium => .str "medium"
  | .High => .str "high"
  | .Premium => .str "premium"

/-- Lowercase variant names of `Quality` (deserialization). -/
def Quality.deserialize : Json → Except String Quality
  | .str "draft" => .ok .Draft
  | .str "low" => .ok .Low
  | .str "medium" => .ok .Medium
  | .str "high" => .ok .High
  | .str "premium" => .ok .Premium
  | _ => .error "unknown variant of Quality"

/-- `Emotion` of `src/api/tts.rs` (`rename_all = "snake_case"`). -/
inductive Emotion where
  | FemaleHappy
  | FemaleSad
  | FemaleAngry
  | FemaleFearful
  | FemaleDisgust
  | FemaleSurprised
  | MaleHappy
  | MaleSad
  | MaleAngry
  | MaleFearful
  | MaleDisgust
  | MaleSurprised
deriving DecidableEq

/-- `#[default]` variant of `Emotion`. -/
def Emotion.default : Emotion := .FemaleHappy

/-- Snake-case variant names of `Emotion` (serialization). -/
def Emotion.serialize : Emotion → Json
  | .FemaleHappy => .str "female_happy"
  | .FemaleSad => .str "female_sad"
  | .FemaleAngry => .str "female_angry"
  | .FemaleFearful => .str "female_fearful"
  | .FemaleDisgust => .str "female_disgust"
  | .FemaleSurprised => .str "female_surprised"
  | .MaleHappy => .str "male_happy"
  | .MaleSad => .str "male_sad"
  | .MaleAngry => .str "male_angry"
  | .MaleFearful => .str "male_fearful"
  | .MaleDisgust => .str "male_disgust"
  | .MaleSurprised => .str "male_surprised"

/-- Snake-case variant names of `Emotion` (deserialization). -/
def Emotion.deserialize : Json → Except String Emotion
  | .str "female_happy" => .ok .FemaleHappy
  | .str "female_sad" => .ok .FemaleSad
  | .str "female_angry" => .ok .FemaleAngry
  | .str "female_fearful" => .ok .FemaleFearful
  | .str "female_disgust" => .ok .FemaleDisgust
  | .str "female_surprised" => .ok .FemaleSurprised
  | .str "male_happy" => .ok .MaleHappy
  | .str "male_sad" => .ok .MaleSad
  | .str "male_angry" => .ok .MaleAngry
  | .str "male_fearful" => .ok .MaleFearful
  | .str "male_disgust" => .ok .MaleDisgust
  | .str "male_surprised" => .ok .MaleSurprised
  | _ => .error "unknown variant of Emotion"

/-- Serde decode of a JSON string. -/
def decodeString : Json → Except String String
  | .str s => .ok s
  | _ => .error "invalid type: expected a string"

/-- Serde decode of an `i32`: an integer JSON number in range. -/
def decodeI32 : Json → Except String Int
  | .num n => if -(2 ^ 31) ≤ n ∧ n < 2 ^ 31 then .ok n else .error "i32 out of range"
  | _ => .error "invalid type: expected an i32"

/-- Serde decode of a `u8`: an integer JSON number in range. -/
def decodeU8 : Json → Except String Nat
  | .num n => if 0 ≤ n ∧ n < 2 ^ 8 then .ok n.toNat else .error "u8 out of range"
  | _ => .error "invalid type: expected a u8"

/-- Serde decode of a float (modelled opaquely as its bit payload); a parsed
JSON number is always finite. -/
def decodeFloat : Json → Except String FloatLit
  | .fnum bits => .ok ⟨bits, true⟩
  | _ => .error "invalid type: expected a float"

/-- Serde decode of `Option<T>`: `null` becomes `None`, anything else is
decoded as `T`. -/
def decodeOpt {α : Type} (dec : Json → Except String α) : Json → Except String (Option α)
  | .null => .ok none
  | j => (dec j).map some

/-- Serde decode of `Vec<T>`. -/
def decodeList {α : Type} (dec : Json → Except String α) : Json → Except String (List α)
  | .arr elems => elems.mapM dec
  | _ => .error "invalid type: expected an array"

/-- A required struct field: missing fields are an error (serde derive). -/
def reqField {α : Type} (dec : Json → Except String α)
    (fields : List (String × Json)) (k : String) : Except String α :=
  match fields.lookup k with
  | some j => dec j
  | none => .error ("missing field " ++ k)

/-- An `Option<T>` struct field: a missing field decodes to `None`
(serde derive treats `Option` fields as defaulting to `None`). -/
def optField {α : Type} (dec : Json → Except String α)
    (fields : List (String × Json)) (k : String) : Except String (Option α) :=
  match fields.lookup k with
  | some j => decodeOpt dec j
  | none => .ok none

/-- A struct field under container-level `#[serde(default)]`: a missing
field takes the value from the container's `Default` instance. -/
def fieldOrDefault {α : Type} (dec : Json → Except String α)
    (fields : List (String × Json)) (k : String) (dflt : α) : Except String α :=
  match fields.lookup k with
  | some j => dec j
  | none => .ok dflt

/-- Serialization of a field marked `skip_serializing_if = "Option::is_none"`:
an unset field contributes no key at all. -/
def skipNoneField {α : Type} (k : String) (ser : α → Json) :
    Option α → List (String × Json)
  | none => []
  | some x => [(k, ser x)]

/-- Serialization of a plain `Option` field without a skip attribute:
an unset field is written as JSON `null`. -/
def serOptJson {α : Type} (ser : α → Json) : Option α → Json
  | none => .null
  | some x => ser x

/-- `Voice` of `src/api/voice.rs`. -/
structure Voice where
  id : String
  name : String
  sample : Option String
  accent : Option String
  age : Option String
  gender : Option String
  language : Option String
  lang_code : Option String
  loudness : Option String
  style : Option String
  tempo : Option String
  texture : Option String
deriving DecidableEq

/-- Serde-derived decode of `Voice`. -/
def Voice.deserialize : Json → Except String Voice
  | .obj fields => do
    let id ← reqField decodeString fields "id"
    let name ← reqField decodeString fields "name"
    let sample ← optField decodeString fields "sample"
    let accent ← optField decodeString fields "accent"
    let age ← optField decodeString fields "age"
    let gender ← optField decodeString fields "gender"
    let language ← optField decodeString fields "language"
    let lang_code ← optField decodeString fields "lang_code"
    let loudness ← optField decodeString fields "loudness"
    let style ← optField decodeString fields "style"
    let tempo ← optField decodeString fields "tempo"
    let texture ← optField decodeString fields "texture"
    pure ⟨id, name, sample, accent, age, gender, language, lang_code,
          loudness, style, tempo, texture⟩
  | _ => .error "invalid type: expected an object"

/-- `ClonedVoice` of `src/api/voice.rs`; the Rust field `r#type` keeps the
JSON key `type`. -/
structure ClonedVoice where
  id : String
  name : String
  type_ : Option String
deriving DecidableEq

/-- Serde-derived decode of `ClonedVoice`. -/
def ClonedVoice.deserialize : Json → Except String ClonedVoice
  | .obj fields => do
    let id ← reqField decodeString fields "id"
    let name ← reqField decodeString fields "name"
    let type_ ← optField decodeString fields "type"
    pure ⟨id, name, type_⟩
  | _ => .error "invalid type: expected an object"

/-- `DeleteClonedVoiceResp` of `src/api/voice.rs`. -/
structure DeleteClonedVoiceResp where
  message : String
  deleted : ClonedVoice
deriving DecidableEq

/-- Serde-derived decode of `DeleteClonedVoiceResp`. -/
def DeleteClonedVoiceResp.deserialize : Json → Except String DeleteClonedVoiceResp
  | .obj fields => do
    let message ← reqField decodeString fields "message"
    let deleted ← reqField ClonedVoice.deserialize fields "deleted"
    pure ⟨message, deleted⟩
  | _ => .error "invalid type: expected an object"

/-- `TTSStreamURL` of `src/api/stream.rs`; `content_type` is renamed to
the JSON key `contentType`. -/
structure TTSStreamURL where
  href : String
  method : String
  content_type : String
  rel : String
  description : String
deriving DecidableEq

/-- Serde-derived decode of `TTSStreamURL`. -/
def TTSStreamURL.deserialize : Json → Except String TTSStreamURL
  | .obj fields => do
    let href ← reqField decodeString fields "href"
    let method ← reqField decodeString fields "method"
    let content_type ← reqField decodeString fields "contentType"
    let rel ← reqField decodeString fields "rel"
    let description ← reqField decodeString fields "description"
    pure ⟨href, method, content_type, rel, description⟩
  | _ => .error "invalid type: expected an object"

/-- `TTSJobReq` of `src/api/job.rs`. -/
structure TTSJobReq where
  text : Option String
  voice : Option String
  quality : Option Quality
  output_format : Option OutputFormat
  voice_engine : Option VoiceEngine
  emotion : Option Emotion
  speed : Option FloatLit
  temperature : Option FloatLit
  sample_rate : Option Int
  seed : Option Nat
  voice_guidance : Option FloatLit
  style_guidance : Option FloatLit
deriving DecidableEq

/-- `impl Default for TTSJobReq` of `src/api/job.rs`. -/
def TTSJobReq.default : TTSJobReq where
  text := none
  voice := none
  quality := some Quality.default
  output_format := some OutputFormat.default
  voice_engine := some VoiceEngine.default
  emotion := some Emotion.default
  speed := none
  temperature := none
  sample_rate := none
  seed := none
  voice_guidance := none
  style_guidance := none

/-- Serde-derived serialization of `TTSJobReq`: every field carries
`skip_serializing_if = "Option::is_none"`, so unset fields contribute no
key. -/
def TTSJobReq.serialize (r : TTSJobReq) : Json :=
  .obj (skipNoneField "text" Json.str r.text ++
    skipNoneField "voice" Json.str r.voice ++
    skipNoneField "quality" Quality.serialize r.quality ++
    skipNoneField "output_format" OutputFormat.serialize r.output_format ++
    skipNoneField "voice_engine" VoiceEngine.serialize r.voice_engine ++
    skipNoneField "emotion" Emotion.serialize r.emotion ++
    skipNoneField "speed" FloatLit.serialize r.speed ++
    skipNoneField "temperature" FloatLit.serialize r.temperature ++
    skipNoneField "sample_rate" Json.num r.sample_rate ++
    skipNoneField "seed" (fun n => Json.num (Int.ofNat n)) r.seed ++
    skipNoneField "voice_guidance" FloatLit.serialize r.voice_guidance ++
    skipNoneField "style_guidance" FloatLit.serialize r.style_guidance)

/-- Serde-derived decode of `TTSJobReq` under container-level
`#[serde(default)]`: missing fields take the values of
`TTSJobReq.default`. -/
def TTSJobReq.deserialize : Json → Except String TTSJobReq
  | .obj fields => do
    let d := TTSJobReq.default
    let text ← fieldOrDefault (decodeOpt decodeString) fields "text" d.text
    let voice ← fieldOrDefault (decodeOpt decodeString) fields "voice" d.voice
    let quality ← fieldOrDefault (decodeOpt Quality.deserialize) fields "quality" d.quality
    let output_format ←
      fieldOrDefault (decodeOpt OutputFormat.deserialize) fields "output_format" d.output_format
    let voice_engine ←
      fieldOrDefault (decodeOpt VoiceEngine.deserialize) fields "voice_engine" d.voice_engine
    let emotion ← fieldOrDefault (decodeOpt Emotion.deserialize) fields "emotion" d.emotion
    let speed ← fieldOrDefault (decodeOpt decodeFloat) fields "speed" d.speed
    let temperature ← fieldOrDefault (decodeOpt decodeFloat) fields "temperature" d.temperature
    let sample_rate ← fieldOrDefault (decodeOpt decodeI32) fields "sample_rate" d.sample_rate
    let seed ← fieldOrDefault (decodeOpt decodeU8) fields "seed" d.seed
    let voice_guidance ←
      fieldOrDefault (decodeOpt decodeFloat) fields "voice_guidance" d.voice_guidance
    let style_guidance ←
      fieldOrDefault (decodeOpt decodeFloat) fields "style_guidance" d.style_guidance
    pure ⟨text, voice, quality, output_format, voice_engine, emotion, speed,
          temperature, sample_rate, seed, voice_guidance, style_guidance⟩
  | _ => .error "invalid type: expected an object"

/-- `Output` of `src/api/job.rs`. -/
structure Output where
  duration : FloatLit
  size : Int
  url : String
deriving DecidableEq

/-- Serde-derived decode of `Output`. -/
def Output.deserialize : Json → Except String Output
  | .obj fields => do
    let duration ← reqField decodeFloat fields "duration"
    let size ← reqField decodeI32 fields "size"
    let url ← reqField decodeString fields "url"
    pure ⟨duration, size, url⟩
  | _ => .error "invalid type: expected an object"

/-- `Link` of `src/api/job.rs`; `content_type` is renamed to the JSON key
`contentType`. -/
structure Link where
  content_type : Option String
  description : Option String
  href : Option String
  method : Option String
  rel : Option String
deriving DecidableEq

/-- Serde-derived decode of `Link`. -/
def Link.deserialize : Json → Except String Link
  | .obj fields => do
    let content_type ← optField decodeString fields "contentType"
    let description ← optField decodeString fields "description"
    let href ← optField decodeString fields "href"
    let method ← optField decodeString fields "method"
    let rel ← optField decodeString fields "rel"
    pure ⟨content_type, description, href, method, rel⟩
  | _ => .error "invalid type: expected an object"

/-- `TTSJob` of `src/api/job.rs`; `links` is renamed to the JSON key
`_links`. -/
structure TTSJob where
  id : String
  created : String
  input : TTSJobReq
  output : Option Output
  status : Option String
  links : Option (List Link)
deriving DecidableEq

/-- Serde-derived decode of `TTSJob`. -/
def TTSJob.deserialize : Json → Except String TTSJob
  | .obj fields => do
    let id ← reqField decodeString fields "id"
    let created ← reqField decodeString fields "created"
    let input ← reqField TTSJobReq.deserialize fields "input"
    let output ← optField Output.deserialize fields "output"
    let status ← optField decodeString fields "status"
    let links ← optField (decodeList Link.deserialize) fields "_links"
    pure ⟨id, created, input, output, status, links⟩
  | _ => .error "invalid type: expected an object"

/-- `TTSStreamReq` of `src/api/stream.rs`. Unlike `TTSJobReq`, its fields
carry no `skip_serializing_if` attribute. -/
structure TTSStreamReq where
  text : Option String
  voice : Option String
  quality : Option Quality
  output_format : Option OutputFormat
  voice_engine : Option VoiceEngine
  emotion : Option Emotion
  sample_rate : Option Int
  seed : Option Int
  voice_guidance : Option FloatLit
  style_guidance : Option FloatLit
  text_guidance : Option FloatLit
  temperature : Option FloatLit
  speed : Option FloatLit
deriving DecidableEq

/-- `impl Default for TTSStreamReq` of `src/api/stream.rs`. -/
def TTSStreamReq.default : TTSStreamReq where
  text := none
  voice := none
  quality := some Quality.default
  output_format := some OutputFormat.default
  voice_engine := some VoiceEngine.default
  emotion := some Emotion.default
  sample_rate := none
  seed := none
  voice_guidance := none
  style_guidance := none
  text_guidance := none
  temperature := none
  speed := none

/-- Serde-derived serialization of `TTSStreamReq`: every field is written,
and an unset (`None`) field is written as JSON `null`. -/
def TTSStreamReq.serialize (r : TTSStreamReq) : Json :=
  .obj [("text", serOptJson Json.str r.text),
    ("voice", serOptJson Json.str r.voice),
    ("quality", serOptJson Quality.serialize r.quality),
    ("output_format", serOptJson OutputFormat.serialize r.output_format),
    ("voice_engine", serOptJson VoiceEngine.serialize r.voice_engine),
    ("emotion", serOptJson Emotion.serialize r.emotion),
    ("sample_rate", serOptJson Json.num r.sample_rate),
    ("seed", serOptJson Json.num r.seed),
    ("voice_guidance", serOptJson FloatLit.serialize r.voice_guidance),
    ("style_guidance", serOptJson FloatLit.serialize r.style_guidance),
    ("text_guidance", serOptJson FloatLit.serialize r.text_guidance),
    ("temperature", serOptJson FloatLit.serialize r.temperature),
    ("speed", serOptJson FloatLit.serialize r.speed)]

/-- A completed HTTP response as the dispatch methods of `Client` observe it:
a status code and a body (already parsed as JSON for the decode step; a body
that is not valid JSON is represented by a value its decoder rejects). -/
structure HttpResponse where
  status : Nat
  body : Json

/-- `reqwest::StatusCode::is_success`: the 2xx class. -/
def statusIsSuccess (s : Nat) : Bool :=
  200 ≤ s && s < 300

/-- The error outcomes a dispatch method can produce: a decode failure
propagated by `?` (from `resp.json()`), or `Error::APIError` wrapping the
decoded error envelope. -/
inductive ClientError where
  | decodeError (msg : String)
  | apiError (e : APIError)
deriving DecidableEq

/-- The 2xx branch shared by all dispatch methods: decode the body as the
endpoint's success type; a decode failure surfaces as `decodeError`. -/
def successPath {α : Type} (dec : Json → Except String α) (body : Json) :
    Except ClientError α :=
  match dec body with
  | .ok t => .ok t
  | .error e => .error (.decodeError e)

/-- The non-2xx branch shared by all dispatch methods: decode the body as an
`APIError` envelope and return it as `Error::APIError`; a body matching no
envelope shape surfaces as `decodeError`. -/
def failurePath (α : Type) (body : Json) : Except ClientError α :=
  match APIError.deserialize body with
  | .ok api_error => .error (.apiError api_error)
  | .error e => .error (.decodeError e)

/-- Response handling of `Client::get_stock_voices` (`src/api/mod.rs`). -/
def Client.get_stock_voices (resp : HttpResponse) : Except ClientError (List Voice) :=
  if statusIsSuccess resp.status then
    match decodeList Voice.deserialize resp.body with
    | .ok voices => .ok voices
    | .error e => .error (.decodeError e)
  else
    match APIError.deserialize resp.body with
    | .ok api_error => .error (.apiError api_error)
    | .error e => .error (.decodeError e)

/-- Response handling of `Client::get_cloned_voices` (`src/api/mod.rs`). -/
def Client.get_cloned_voices (resp : HttpResponse) : Except ClientError (List ClonedVoice) :=
  if statusIsSuccess resp.status then
    match decodeList ClonedVoice.deserialize resp.body with
    | .ok voices => .ok voices
    | .error e => .error (.decodeError e)
  else
    match APIError.deserialize resp.body with
    | .ok api_error => .error (.apiError api_error)
    | .error e => .error (.decodeError e)

/-- Response handling of `Client::clone_voice_from_file` (`src/api/mod.rs`). -/
def Client.clone_voice_from_file (resp : HttpResponse) : Except ClientError ClonedVoice :=
  if statusIsSuccess resp.status then
    match ClonedVoice.deserialize resp.body with
    | .ok voice => .ok voice
    | .error e => .error (.decodeError e)
  else
    match APIError.deserialize resp.body with
    | .ok api_error => .error (.apiError api_error)
    | .error e => .error (.decodeError e)

/-- Response handling of `Client::clone_voice_from_url` (`src/api/mod.rs`). -/
def Client.clone_voice_from_url (resp : HttpResponse) : Except ClientError ClonedVoice :=
  if statusIsSuccess resp.status then
    match ClonedVoice.deserialize resp.body with
    | .ok voice => .ok voice
    | .error e => .error (.decodeError e)
  else
    match APIError.deserialize resp.body with
    | .ok api_error => .error (.apiError api_error)
    | .error e => .error (.decodeError e)

/-- Response handling of `Client::delete_cloned_voice` (`src/api/mod.rs`). -/
def Client.delete_cloned_voice (resp : HttpResponse) :
    Except ClientError DeleteClonedVoiceResp :=
  if statusIsSuccess resp.status then
    match DeleteClonedVoiceResp.deserialize resp.body with
    | .ok del_resp => .ok del_resp
    | .error e => .error (.decodeError e)
  else
    match APIError.deserialize resp.body with
    | .ok api_error => .error (.apiError api_error)
    | .error e => .error (.decodeError e)

/-- Response handling of `Client::create_tts_job` (`src/api/mod.rs`). -/
def Client.create_tts_job (resp : HttpResponse) : Except ClientError TTSJob :=
  if statusIsSuccess resp.status then
    match TTSJob.deserialize resp.body with
    | .ok tts_job => .ok tts_job
    | .error e => .error (.decodeError e)
  else
    match APIError.deserialize resp.body with
    | .ok api_error => .error (.apiError api_error)
    | .error e => .error (.decodeError e)

/-- Response handling of `Client::get_tts_job` (`src/api/mod.rs`). -/
def Client.get_tts_job (resp : HttpResponse) : Except ClientError TTSJob :=
  if statusIsSuccess resp.status then
    match TTSJob.deserialize resp.body with
    | .ok tts_job => .ok tts_job
    | .error e => .error (.decodeError e)
  else
    match APIError.deserialize resp.body with
    | .ok api_error => .error (.apiError api_error)
    | .error e => .error (.decodeError e)

/-- Response handling of `Client::get_audio_stream_url` (`src/api/mod.rs`). -/
def Client.get_audio_stream_url (resp : HttpResponse) : Except ClientError TTSStreamURL :=
  if statusIsSuccess resp.status then
    match TTSStreamURL.deserialize resp.body with
    | .ok audio_stream_url => .ok audio_stream_url
    | .error e => .error (.decodeError e)
  else
    match APIError.deserialize resp.body with
    | .ok api_error => .error (.apiError api_error)
    | .error e => .error (.decodeError e)

/-- A transport-level failure while pulling the next body chunk
(`reqwest::Error` from `Response::chunk`). -/
abbrev TransportError := String

/-- A streaming HTTP response: its status, the `Content-Location` header,
the body chunks that arrive before the stream terminates, and the way the
stream terminates (`none` = clean end of body, `some e` = transport error
after the listed chunks were delivered). -/
structure StreamingResponse where
  status : Nat
  contentLocation : Option String
  chunks : List (List Nat)
  terminal : Option TransportError

/-- The relay loop
`while let Some(chunk) = resp.chunk().await? { w.write_all(&chunk).await?; }`:
each arriving chunk is appended to the writer's sequence of writes; a
terminal transport error is returned after the delivered chunks were
written. -/
def relayLoop : List (List Nat) → Option TransportError → List (List Nat) →
    List (List Nat) × Option TransportError
  | [], t, w => (w, t)
  | c :: cs, t, w => relayLoop cs t (w ++ [c])

/-- Body relay of `Client::write_audio_stream` (`src/api/mod.rs`): the
response body is relayed to the writer with no status check. -/
def Client.write_audio_stream (resp : StreamingResponse) (w : List (List Nat)) :
    List (List Nat) × Option TransportError :=
  relayLoop resp.chunks resp.terminal w

/-- Body relay of `Client::write_tts_job_audio_stream` (`src/api/mod.rs`). -/
def Client.write_tts_job_audio_stream (resp : StreamingResponse) (w : List (List Nat)) :
    List (List Nat) × Option TransportError :=
  relayLoop resp.chunks resp.terminal w

/-- Body relay of `Client::write_tts_job_progress_stream` (`src/api/mod.rs`). -/
def Client.write_tts_job_progress_stream (resp : StreamingResponse) (w : List (List Nat)) :
    List (List Nat) × Option TransportError :=
  relayLoop resp.chunks resp.terminal w

/-- Body relay of `Client::create_tts_job_write_progress_stream`
(`src/api/mod.rs`): reads the `Content-Location` header, relays the body to
the writer with no status check, and returns the header value on success. -/
def Client.create_tts_job_write_progress_stream (resp : StreamingResponse)
    (w : List (List Nat)) : List (List Nat) × Except TransportError (Option String) :=
  let stream_url := resp.contentLocation
  match relayLoop resp.chunks resp.terminal w with
  | (w2, none) => (w2, .ok stream_url)
  | (w2, some e) => (w2, .error e)

/-- The pull-mode chunk sequence handed to the caller
(`reqwest::Response::bytes_stream()`): the remaining chunks and the terminal
outcome. -/
structure ByteStream where
  chunks : List (List Nat)
  terminal : Option TransportError
deriving DecidableEq

/-- `Response::bytes_stream()`. -/
def StreamingResponse.bytes_stream (resp : StreamingResponse) : ByteStream :=
  ⟨resp.chunks, resp.terminal⟩

/-- One step of driving the pull-mode sequence: the next item (a chunk, or
the terminal transport error as a final item) together with the advanced
stream state, or `none` when the stream is exhausted. -/
def ByteStream.next : ByteStream → Option (Except TransportError (List Nat) × ByteStream)
  | ⟨[], none⟩ => none
  | ⟨[], some e⟩ => some (.error e, ⟨[], none⟩)
  | ⟨c :: cs, t⟩ => some (.ok c, ⟨cs, t⟩)

/-- Body handling of `Client::stream_audio` (`src/api/mod.rs`): the body's
chunk stream is returned to the caller with no status check. -/
def Client.stream_audio (resp : StreamingResponse) : ByteStream :=
  resp.bytes_stream

/-- Body handling of `Client::stream_tts_job_progress` (`src/api/mod.rs`). -/
def Client.stream_tts_job_progress (resp : StreamingResponse) : ByteStream :=
  resp.bytes_stream

/-- Legal characters of an HTTP header value (http crate `HeaderValue`):
tab, or any byte at least 32 other than DEL. Multi-byte UTF-8 characters
only contribute bytes at least 128, all legal, so the predicate is stated on
characters. -/
def isValidHeaderValueChar (c : Char) : Bool :=
  c.toNat == 9 || (32 ≤ c.toNat && c.toNat != 127)

/-- Model of `HeaderValue::from_str`. -/
def HeaderValue.tryFrom (s : String) : Option String :=
  if s.data.all isValidHeaderValueChar then some s else none

/-- Legal characters of an HTTP header name (http crate `HeaderName` token
characters): ASCII letters and digits and the specials
`! # $ % & ' * + - . ^ _ \x60 | ~` (listed by code point). -/
def isValidHeaderNameChar (c : Char) : Bool :=
  (97 ≤ c.toNat && c.toNat ≤ 122) || (65 ≤ c.toNat && c.toNat ≤ 90) ||
  (48 ≤ c.toNat && c.toNat ≤ 57) ||
  [33, 35, 36, 37, 38, 39, 42, 43, 45, 46, 94, 95, 96, 124, 126].contains c.toNat

/-- ASCII lowercasing of one character. -/
def lowerAsciiChar (c : Char) : Char :=
  if 65 ≤ c.toNat && c.toNat ≤ 90 then Char.ofNat (c.toNat + 32) else c

/-- Header names are canonicalized to lowercase when parsed
(`HeaderName` stores the lowercase form). -/
def canonicalHeaderName (s : String) : String :=
  ⟨s.data.map lowerAsciiChar⟩

/-- Model of `&str → HeaderName` parsing: nonempty, all characters legal,
result canonicalized to lowercase. -/
def HeaderName.tryFrom (s : String) : Option String :=
  if !s.isEmpty && s.data.all isValidHeaderNameChar then
    some (canonicalHeaderName s)
  else none

/-- Model of `http::HeaderMap`: an ordered list of (canonical name, value)
entries. -/
abbrev HeaderMap := List (String × String)

/-- `HeaderMap::insert`: replaces the value of the first existing entry for
the name, dropping any extra values for it; appends when the name is
absent. -/
def headerMapInsert : HeaderMap → String → String → HeaderMap
  | [], n, v => [(n, v)]
  | (n2, v2) :: rest, n, v =>
    if n2 == n then (n, v) :: rest.filter (fun p => p.1 != n)
    else (n2, v2) :: headerMapInsert rest n v

/-- `HeaderMap::append`: adds the entry at the end, keeping existing
entries for the name. -/
def headerMapAppend (m : HeaderMap) (n v : String) : HeaderMap :=
  m ++ [(n, v)]

/-- Model of `url::Url` (external `url` crate): the parsed URL string. -/
structure Url where
  toString : String
deriving DecidableEq

/-- Whether the first list is an initial segment of the second. -/
def startsWithChars : List Char → List Char → Bool
  | [], _ => true
  | _ :: _, [] => false
  | a :: pre, b :: rest => a == b && startsWithChars pre rest

/-- Model of `url::Url::parse` (external `url` crate), simplified to what the
claims need: a string with an http(s) scheme and a nonempty remainder parses
to itself. The constant `BASE_URL + V2_PATH` and its path extensions are of
this form. -/
def Url.parse (s : String) : Option Url :=
  if (startsWithChars "https://".data s.data && s.data.length > 8) ||
      (startsWithChars "http://".data s.data && s.data.length > 7) then
    some ⟨s⟩
  else none

/-- Opaque model of `reqwest::Client` (the transport handle). -/
inductive ReqwestClient where
  | new
deriving DecidableEq

/-- `BASE_URL` of `src/api/mod.rs`. -/
def BASE_URL : String := "https://api.play.ht/api"

/-- `V2_PATH` of `src/api/mod.rs`. -/
def V2_PATH : String := "/v2"

/-- `USER_ID_HEADER` of `src/api/mod.rs`. -/
def USER_ID_HEADER : String := "X-USER-ID"

/-- `CLIENT_USER_AGENT` of `src/api/mod.rs`. -/
def CLIENT_USER_AGENT : String := "milosgajdos/playht_rs"

/-- The process environment, as `std::env::var` observes it (`none` covers
both an unset variable and a non-unicode value). -/
abbrev Env := String → Option String

/-- Build-time errors of `src/api/mod.rs` and the header/url parse errors
boxed by `?` in the builder methods. -/
inductive BuildError where
  | clientBuildError (msg : String)
  | invalidHeaderName
  | invalidHeaderValue
  | urlParseError
deriving DecidableEq

/-- `ClientBuilder` of `src/api/mod.rs` (all fields private in the
source). -/
structure ClientBuilder where
  client : Option ReqwestClient
  url : Option Url
  headers : Option HeaderMap
deriving DecidableEq

/-- `Client` of `src/api/mod.rs`. -/
structure Client where
  client : ReqwestClient
  url : Url
  headers : HeaderMap
deriving DecidableEq

/-- `ClientBuilder::header`: parse the name, then the value (each failure is
returned as an error); insert into the headers map. The
`headers.as_mut().unwrap()` panics (modelled as `none`) if the headers slot
is unset. -/
def ClientBuilder.header (b : ClientBuilder) (name value : String) :
    Option (Except BuildError ClientBuilder) :=
  match HeaderName.tryFrom name with
  | none => some (.error .invalidHeaderName)
  | some header_name =>
    match HeaderValue.tryFrom value with
    | none => some (.error .invalidHeaderValue)
    | some header_value =>
      match b.headers with
      | none => none
      | some hs =>
        some (.ok { b with headers := some (headerMapInsert hs header_name header_value) })

/-- `ClientBuilder::path`: append the path segment to the current URL and
re-parse (failure returned as an error). The `self.url.unwrap()` panics
(modelled as `none`) if the URL slot is unset. -/
def ClientBuilder.path (b : ClientBuilder) (p : String) :
    Option (Except BuildError ClientBuilder) :=
  match b.url with
  | none => none
  | some u =>
    match Url.parse (u.toString ++ p) with
    | none => some (.error .urlParseError)
    | some u2 => some (.ok { b with url := some u2 })

/-- `ClientBuilder::req_client`: replace the transport handle. -/
def ClientBuilder.req_client (b : ClientBuilder) (c : ReqwestClient) :
    Except BuildError ClientBuilder :=
  .ok { b with client := some c }

/-- `ClientBuilder::build`: fails with `ClientBuildError("url is not set")`
when no URL is set; otherwise produces the `Client` with that exact URL. The
`self.client.unwrap()` / `self.headers.unwrap()` panics (modelled as `none`)
are reached only if those slots are unset. -/
def ClientBuilder.build (b : ClientBuilder) : Option (Except BuildError Client) :=
  match b.url with
  | none => some (.error (.clientBuildError "url is not set"))
  | some url =>
    match b.client, b.headers with
    | some c, some hs => some (.ok ⟨c, url, hs⟩)
    | _, _ => none

/-- `impl Default for ClientBuilder`: read `PLAYHT_SECRET_KEY` and
`PLAYHT_USER_ID`; when present, append the `authorization` / `x-user-id`
headers, parsing each value with `.unwrap()` (panic, modelled as `none`, on
an illegal value); always append the `user-agent` header; set the URL to
`BASE_URL + V2_PATH` when it parses. Split into a helper for each
conditional header append, then the builder itself. -/
def appendEnvHeader (hs : HeaderMap) (name : String) :
    Option String → Option HeaderMap
  | none => some hs
  | some value =>
    match HeaderValue.tryFrom value with
    | none => none
    | some v => some (headerMapAppend hs name v)

def ClientBuilder.default (env : Env) : Option ClientBuilder := do
  let headers1 ← appendEnvHeader [] "authorization" (env "PLAYHT_SECRET_KEY")
  let headers2 ←
    appendEnvHeader headers1 (canonicalHeaderName USER_ID_HEADER) (env "PLAYHT_USER_ID")
  let headers3 := headerMapAppend headers2 "user-agent" CLIENT_USER_AGENT
  some { client := some .new, url := Url.parse (BASE_URL ++ V2_PATH), headers := some headers3 }

/-- `ClientBuilder::new` simply returns `ClientBuilder::default()`. -/
def ClientBuilder.mkNew (env : Env) : Option (Except BuildError ClientBuilder) :=
  match ClientBuilder.default env with
  | none => none
  | some b => some (.ok b)

/-- `Client::new`: `ClientBuilder::default().build().unwrap()`; a build
failure would panic (modelled as `none`). -/
def Client.new (env : Env) : Option Client :=
  match ClientBuilder.default env with
  | none => none
  | some b =>
    match b.build with
    | some (.ok c) => some c
    | some (.error _) => none
    | none => none

/-- The builders constructible through the public API (the struct's fields
are private in the source): `ClientBuilder::default` / `ClientBuilder::new`,
followed by any sequence of successful `header`, `path` and `req_client`
calls. -/
inductive ClientBuilder.Reachable : ClientBuilder → Prop where
  | default (env : Env) (b : ClientBuilder) :
      ClientBuilder.default env = some b → ClientBuilder.Reachable b
  | header (b : ClientBuilder) (n v : String) (b2 : ClientBuilder) :
      ClientBuilder.Reachable b → b.header n v = some (.ok b2) →
      ClientBuilder.Reachable b2
  | path (b : ClientBuilder) (p : String) (b2 : ClientBuilder) :
      ClientBuilder.Reachable b → b.path p = some (.ok b2) →
      ClientBuilder.Reachable b2
  | req_client (b : ClientBuilder) (c : ReqwestClient) (b2 : ClientBuilder) :
      ClientBuilder.Reachable b → b.req_client c = .ok b2 →
      ClientBuilder.Reachable b2

/-- The keys of a JSON object, in order (`[]` on non-objects). -/
def Json.objKeys : Json → List String
  | .obj fields => fields.map Prod.fst
  | _ => []

/-- An environment with no variables set. -/
def emptyEnv : Env := fun _ => none

/-- An environment carrying well-formed credentials. -/
def envWithCreds : Env := fun k =>
  if k = "PLAYHT_SECRET_KEY" then some "sk-123"
  else if k = "PLAYHT_USER_ID" then some "user-42" else none

/-- An environment whose secret key contains a control byte. -/
def envWithBadSecret : Env := fun k =>
  if k = "PLAYHT_SECRET_KEY" then some "bad\x01key" else none

/-- Whether an optional environment value is absent or legal as an HTTP
header value. -/
def legalHeaderValueOpt : Option String → Bool
  | none => true
  | some s => HeaderValue.tryFrom s == some s

/-- A concrete payload carrying all four candidate fields at once. -/
def genShapedPayload : Json :=
  .obj [("error_message", .str "bad voice"), ("error_id", .str "E42"),
        ("message", .str "m"), ("error", .str "e")]

/-- C1: decoding a JSON value as an `APIError` envelope tries the shapes in
fixed order with first match winning: an object with string fields
`error_message` and `error_id` decodes to `Gen` with those strings (whatever
other fields are present); otherwise an object with string fields `message`
and `error` decodes to `Internal`; otherwise a bare JSON string `s` decodes to
`RateLimit s`; otherwise decoding fails. The decode is a pure function. -/
theorem c1_apierror_decode_shape_order (v : Json) :
    (∀ em ei, v.strField "error_message" = some em →
      v.strField "error_id" = some ei →
      APIError.deserialize v = .ok (.Gen em ei)) ∧
    ((v.strField "error_message" = none ∨ v.strField "error_id" = none) →
      ∀ m e, v.strField "message" = some m → v.strField "error" = some e →
      APIError.deserialize v = .ok (.Internal m e)) ∧
    (∀ s, v = .str s → APIError.deserialize v = .ok (.RateLimit s)) ∧
    ((v.strField "error_message" = none ∨ v.strField "error_id" = none) →
      (v.strField "message" = none ∨ v.strField "error" = none) →
      (∀ s, v ≠ .str s) →
      APIError.deserialize v = .error "Unknown API error format") := by
  refine ⟨?_, ?_, ?_, ?_⟩
  · intro em ei hem hei
    simp [APIError.deserialize, hem, hei]
  · intro h m e hm he
    rcases hem : v.strField "error_message" with _ | em <;>
      rcases hei : v.strField "error_id" with _ | ei <;>
      simp [APIError.deserialize, hem, hei, hm, he]
    rcases h with h | h
    · exact absurd hem (h ▸ (by simp))
    · exact absurd hei (h ▸ (by simp))
  · intro s hv
    subst hv
    rfl
  · intro h12 h34 hstr
    have hs : v.asStr = none := by
      cases v <;> first
        | rfl
        | exact absurd rfl (hstr _)
    rcases hem : v.strField "error_message" with _ | em <;>
      rcases hei : v.strField "error_id" with _ | ei <;>
      rcases hm : v.strField "message" with _ | m <;>
      rcases he : v.strField "error" with _ | e <;>
      simp_all [APIError.deserialize]

/-- C1 witness: a payload with all of `error_message`, `error_id`, `message`,
`error` decodes to `Gen` with the first pair. -/
theorem c1_apierror_decode_shape_order_witness :
    APIError.deserialize genShapedPayload = .ok (.Gen "bad voice" "E42") :=
  (c1_apierror_decode_shape_order genShapedPayload).1 "bad voice" "E42" rfl rfl

/-- C2: every non-streaming dispatch operation classifies the completed
response by its status class before touching the body: on a 2xx status the
body is decoded as the endpoint's success type only (`successPath`, where a
decode failure surfaces as a decode error), and on any other status the body
is decoded as an `APIError` envelope only (`failurePath`), returned as a
failure — `failurePath` never yields a success, and neither branch consults
the other shape's decoder. -/
theorem c2_dispatch_status_classification (resp : HttpResponse) :
    (statusIsSuccess resp.status = true →
      Client.get_stock_voices resp = successPath (decodeList Voice.deserialize) resp.body ∧
      Client.get_cloned_voices resp =
        successPath (decodeList ClonedVoice.deserialize) resp.body ∧
      Client.clone_voice_from_file resp = successPath ClonedVoice.deserialize resp.body ∧
      Client.clone_voice_from_url resp = successPath ClonedVoice.deserialize resp.body ∧
      Client.delete_cloned_voice resp =
        successPath DeleteClonedVoiceResp.deserialize resp.body ∧
      Client.create_tts_job resp = successPath TTSJob.deserialize resp.body ∧
      Client.get_tts_job resp = successPath TTSJob.deserialize resp.body ∧
      Client.get_audio_stream_url resp = successPath TTSStreamURL.deserialize resp.body) ∧
    (statusIsSuccess resp.status = false →
      (∀ (α : Type) (t : α), failurePath α resp.body ≠ .ok t) ∧
      Client.get_stock_voices resp = failurePath _ resp.body ∧
      Client.get_cloned_voices resp = failurePath _ resp.body ∧
      Client.clone_voice_from_file resp = failurePath _ resp.body ∧
      Client.clone_voice_from_url resp = failurePath _ resp.body ∧
      Client.delete_cloned_voice resp = failurePath _ resp.body ∧
      Client.create_tts_job resp = failurePath _ resp.body ∧
      Client.get_tts_job resp = failurePath _ resp.body ∧
      Client.get_audio_stream_url resp = failurePath _ resp.body) := by
  constructor
  · intro h
    refine ⟨?_, ?_, ?_, ?_, ?_, ?_, ?_, ?_⟩ <;>
      simp [Client.get_stock_voices, Client.get_cloned_voices,
        Client.clone_voice_from_file, Client.clone_voice_from_url,
        Client.delete_cloned_voice, Client.create_tts_job, Client.get_tts_job,
        Client.get_audio_stream_url, successPath, h] <;> split <;> simp_all
  · intro h
    refine ⟨?_, ?_, ?_, ?_, ?_, ?_, ?_, ?_, ?_⟩
    · intro α t
      cases h2 : APIError.deserialize resp.body <;> simp [failurePath, h2]
    all_goals
      simp [Client.get_stock_voices, Client.get_cloned_voices,
        Client.clone_voice_from_file, Client.clone_voice_from_url,
        Client.delete_cloned_voice, Client.create_tts_job, Client.get_tts_job,
        Client.get_audio_stream_url, failurePath, h] <;> split <;> simp_all

/-- C2 witness: a 201 response with an empty JSON array body decodes as the
success type, and a 429 response with a bare-string body is returned as the
decoded `RateLimit` envelope. -/
theorem c2_dispatch_status_classification_witness :
    Client.get_stock_voices { status := 201, body := .arr [] } = .ok [] ∧
    Client.create_tts_job { status := 429, body := .str "rate limit exceeded" } =
      .error (.apiError (.RateLimit "rate limit exceeded")) := by
  constructor
  · exact (((c2_dispatch_status_classification
      { status := 201, body := .arr [] }).1 (by decide)).1).trans rfl
  · exact (((c2_dispatch_status_classification
      { status := 429, body := .str "rate limit exceeded" }).2
        (by decide)).2.2.2.2.2.2.1).trans rfl

/-- C3 counterexample: on a 500 response whose body is the two bytes `{}`,
`write_audio_stream` relays the body to the writer and reports success, and
`stream_audio` hands the body back as chunks — no error envelope is decoded
and no error is returned, contrary to the claim that non-2xx streaming
responses are resolved into an `APIError` envelope instead of being
relayed. -/
theorem c3_streaming_relays_non2xx_counterexample :
    Client.write_audio_stream
        { status := 500, contentLocation := none, chunks := [[123, 125]],
          terminal := none } [] =
      ([[123, 125]], none) ∧
    Client.stream_audio
        { status := 500, contentLocation := none, chunks := [[123, 125]],
          terminal := none } =
      { chunks := [[123, 125]], terminal := none } := by
  exact ⟨rfl, rfl⟩

/-- C3 amended: the streaming operations perform no status-based
classification at all — in push mode and pull mode alike, the body is
relayed to the writer / returned as the chunk sequence unconditionally, the
result is independent of the response status, and no `APIError` envelope is
ever decoded or returned by them. -/
theorem c3_streaming_no_status_classification (resp : StreamingResponse)
    (w : List (List Nat)) (s2 : Nat) :
    Client.write_audio_stream resp w = relayLoop resp.chunks resp.terminal w ∧
    Client.write_tts_job_audio_stream resp w = relayLoop resp.chunks resp.terminal w ∧
    Client.write_tts_job_progress_stream resp w = relayLoop resp.chunks resp.terminal w ∧
    (Client.create_tts_job_write_progress_stream resp w).1 =
      (relayLoop resp.chunks resp.terminal w).1 ∧
    Client.stream_audio resp = resp.bytes_stream ∧
    Client.stream_tts_job_progress resp = resp.bytes_stream ∧
    Client.write_audio_stream { resp with status := s2 } w =
      Client.write_audio_stream resp w ∧
    Client.write_tts_job_audio_stream { resp with status := s2 } w =
      Client.write_tts_job_audio_stream resp w ∧
    Client.write_tts_job_progress_stream { resp with status := s2 } w =
      Client.write_tts_job_progress_stream resp w ∧
    Client.create_tts_job_write_progress_stream { resp with status := s2 } w =
      Client.create_tts_job_write_progress_stream resp w ∧
    Client.stream_audio { resp with status := s2 } = Client.stream_audio resp ∧
    Client.stream_tts_job_progress { resp with status := s2 } =
      Client.stream_tts_job_progress resp := by
  refine ⟨rfl, rfl, rfl, ?_, rfl, rfl, rfl, rfl, rfl, rfl, rfl, rfl⟩
  unfold Client.create_tts_job_write_progress_stream
  split <;> simp_all

/-- Keys contributed by a skip-if-none field: the key exactly when set. -/
theorem skipNoneField_keys {α : Type} (k : String) (ser : α → Json) (o : Option α) :
    (skipNoneField k ser o).map Prod.fst = if o.isSome then [k] else [] := by
  cases o <;> simp [skipNoneField]

/-- C4 counterexample: serializing the default `TTSStreamReq` (whose `text`,
`voice`, `sample_rate`, `seed`, guidance, `temperature` and `speed` fields
are all unset) writes a key for every one of them with value JSON `null` —
the claim that no key is written for an unset field fails for
`TTSStreamReq`. -/
theorem c4_no_null_serialization_counterexample :
    TTSStreamReq.serialize TTSStreamReq.default =
      .obj [("text", .null), ("voice", .null), ("quality", .str "draft"),
        ("output_format", .str "mp3"), ("voice_engine", .str "PlayHT2.0"),
        ("emotion", .str "female_happy"), ("sample_rate", .null),
        ("seed", .null), ("voice_guidance", .null), ("style_guidance", .null),
        ("text_guidance", .null), ("temperature", .null), ("speed", .null)] := by
  rfl

/-- C4 amended: `TTSJobReq` serialization writes a key exactly for each set
field — so for an unset field no key, and in particular no `null`, is ever
written; `TTSStreamReq` serialization instead writes every one of its
thirteen keys, rendering each unset field as JSON `null`. (A set field may
still serialize as `null`: serde_json renders a set non-finite float as
`null` under its key.) -/
theorem c4_unset_field_serialization (r : TTSJobReq) (s : TTSStreamReq) :
    ((TTSJobReq.serialize r).objKeys =
      (if r.text.isSome then ["text"] else []) ++
      (if r.voice.isSome then ["voice"] else []) ++
      (if r.quality.isSome then ["quality"] else []) ++
      (if r.output_format.isSome then ["output_format"] else []) ++
      (if r.voice_engine.isSome then ["voice_engine"] else []) ++
      (if r.emotion.isSome then ["emotion"] else []) ++
      (if r.speed.isSome then ["speed"] else []) ++
      (if r.temperature.isSome then ["temperature"] else []) ++
      (if r.sample_rate.isSome then ["sample_rate"] else []) ++
      (if r.seed.isSome then ["seed"] else []) ++
      (if r.voice_guidance.isSome then ["voice_guidance"] else []) ++
      (if r.style_guidance.isSome then ["style_guidance"] else [])) ∧
    ((TTSStreamReq.serialize s).objKeys =
      ["text", "voice", "quality", "output_format", "voice_engine", "emotion",
       "sample_rate", "seed", "voice_guidance", "style_guidance",
       "text_guidance", "temperature", "speed"]) ∧
    ((TTSStreamReq.serialize s).get "text" = some (serOptJson Json.str s.text)) ∧
    (serOptJson Json.str (none : Option String) = Json.null) := by
  refine ⟨?_, rfl, rfl, rfl⟩
  simp [TTSJobReq.serialize, Json.objKeys, skipNoneField_keys]

/-- Every builder constructible through the public API has its transport and
headers slots set (only the URL slot is ever observed empty by `build`). -/
theorem reachable_slots (b : ClientBuilder) (h : ClientBuilder.Reachable b) :
    b.client.isSome ∧ b.headers.isSome := by
  induction h with
  | default env b hdef =>
    rcases h1 : appendEnvHeader [] "authorization" (env "PLAYHT_SECRET_KEY") with _ | hs1
    · simp [ClientBuilder.default, h1] at hdef
    · rcases h2 : appendEnvHeader hs1 (canonicalHeaderName USER_ID_HEADER)
        (env "PLAYHT_USER_ID") with _ | hs2
      · simp [ClientBuilder.default, h1, h2] at hdef
      · simp [ClientBuilder.default, h1, h2] at hdef
        simp [← hdef]
  | header b n v b2 _ hstep ih =>
    rcases hn : HeaderName.tryFrom n with _ | hname <;>
      rcases hv : HeaderValue.tryFrom v with _ | hvalue <;>
      rcases hh : b.headers with _ | hs <;>
      simp [ClientBuilder.header, hn, hv, hh] at hstep <;>
      simp [← hstep, ih.1]
  | path b p b2 _ hstep ih =>
    rcases hu : b.url with _ | u <;>
      simp [ClientBuilder.path, hu] at hstep
    rcases hp : Url.parse (u.toString ++ p) with _ | u2 <;>
      simp [hp] at hstep <;>
      simp [← hstep, ih.1, ih.2]
  | req_client b c b2 _ hstep ih =>
    simp [ClientBuilder.req_client] at hstep
    simp [← hstep, ih.2]

/-- C5: building a builder whose URL slot is empty fails with
`ClientBuildError("url is not set")` — no panic, no partially-built client —
and building any (publicly constructible) builder whose URL is set succeeds
and yields a client bound to exactly that URL. -/
theorem c5_build_requires_url :
    (∀ b : ClientBuilder, b.url = none →
      b.build = some (.error (.clientBuildError "url is not set"))) ∧
    (∀ (b : ClientBuilder) (u : Url), ClientBuilder.Reachable b → b.url = some u →
      ∃ c : Client, b.build = some (.ok c) ∧ c.url = u) := by
  constructor
  · intro b h
    simp [ClientBuilder.build, h]
  · intro b u hreach hu
    obtain ⟨hc, hh⟩ := reachable_slots b hreach
    obtain ⟨c0, hc0⟩ := Option.isSome_iff_exists.mp hc
    obtain ⟨hs0, hh0⟩ := Option.isSome_iff_exists.mp hh
    refine ⟨⟨c0, u, hs0⟩, ?_, rfl⟩
    simp [ClientBuilder.build, hu, hc0, hh0]

/-- C5 witness: a builder with every slot empty fails with the build error,
and the default builder of an empty environment (URL slot holding the base
URL) builds a client bound to that URL. -/
theorem c5_build_requires_url_witness :
    ((ClientBuilder.mk none none none).build =
      some (.error (.clientBuildError "url is not set"))) ∧
    ∃ c : Client,
      (ClientBuilder.mk (some .new) (some ⟨"https://api.play.ht/api/v2"⟩)
        (some [("user-agent", CLIENT_USER_AGENT)])).build = some (.ok c) ∧
      c.url = ⟨"https://api.play.ht/api/v2"⟩ := by
  constructor
  · exact c5_build_requires_url.1 _ rfl
  · exact c5_build_requires_url.2 _ _
      (ClientBuilder.Reachable.default emptyEnv _ (by rfl)) rfl

/-- Successful header-name parsing yields the canonical lowercase form. -/
theorem headerName_tryFrom_canonical (n hn : String)
    (h : HeaderName.tryFrom n = some hn) : hn = canonicalHeaderName n := by
  unfold HeaderName.tryFrom at h
  split at h <;> simp_all

/-- Nothing with name `n` survives filtering for names different from `n`. -/
theorem filter_ne_then_eq_nil (tl : HeaderMap) (n : String) :
    (tl.filter (fun p => p.1 != n)).filter (fun p => p.1 == n) = [] := by
  rw [List.filter_filter]
  rw [List.filter_eq_nil_iff]
  intro a _
  by_cases h : a.1 == n <;> simp [bne, h]

/-- Successful header-value parsing returns the value itself. -/
theorem headerValue_tryFrom_self (v hv : String)
    (h : HeaderValue.tryFrom v = some hv) : hv = v := by
  unfold HeaderValue.tryFrom at h
  split at h <;> simp_all

/-- After an insert, the map holds exactly one entry for the name: the
inserted value. -/
theorem headerMapInsert_filter (m : HeaderMap) (n v : String) :
    (headerMapInsert m n v).filter (fun p => p.1 == n) = [(n, v)] := by
  induction m with
  | nil => simp [headerMapInsert, List.filter_cons]
  | cons hd tl ih =>
    by_cases h : hd.1 == n
    · rcases hd with ⟨n2, v2⟩
      simp only [headerMapInsert, h, if_true]
      simp [List.filter_cons, filter_ne_then_eq_nil]
    · rcases hd with ⟨n2, v2⟩
      simp only [headerMapInsert] at *
      simp [h, List.filter_cons, ih]

/-- C6: header names are case-insensitive with last write winning — after
setting `n` to `v1` and then `n2` (the same name up to letter case) to `v2`,
the headers map holds exactly one entry for the canonical name, carrying
`v2`; a name or value with illegal characters fails with the corresponding
header error (producing no updated builder). -/
theorem c6_header_case_insensitive_last_write_wins :
    (∀ (b b1 b2 : ClientBuilder) (n v1 n2 v2 : String),
      canonicalHeaderName n2 = canonicalHeaderName n →
      b.header n v1 = some (.ok b1) → b1.header n2 v2 = some (.ok b2) →
      ∃ hs2, b2.headers = some hs2 ∧
        hs2.filter (fun p => p.1 == canonicalHeaderName n) =
          [(canonicalHeaderName n, v2)]) ∧
    (∀ (b : ClientBuilder) (n v : String), HeaderName.tryFrom n = none →
      b.header n v = some (.error .invalidHeaderName)) ∧
    (∀ (b : ClientBuilder) (n v hn : String), HeaderName.tryFrom n = some hn →
      HeaderValue.tryFrom v = none →
      b.header n v = some (.error .invalidHeaderValue)) := by
  refine ⟨?_, ?_, ?_⟩
  · intro b b1 b2 n v1 n2 v2 hcase h1 h2
    rcases hn1 : HeaderName.tryFrom n with _ | hn <;>
      simp [ClientBuilder.header, hn1] at h1
    rcases hv1 : HeaderValue.tryFrom v1 with _ | hv <;> simp [hv1] at h1
    rcases hh : b.headers with _ | hs <;> simp [hh] at h1
    rcases hn2 : HeaderName.tryFrom n2 with _ | hn2v <;>
      simp [ClientBuilder.header, hn2] at h2
    rcases hv2 : HeaderValue.tryFrom v2 with _ | hv2v <;> simp [hv2] at h2
    have hcn : hn = canonicalHeaderName n := headerName_tryFrom_canonical n hn hn1
    have hcn2 : hn2v = canonicalHeaderName n :=
      (headerName_tryFrom_canonical n2 hn2v hn2).trans hcase
    have hveq : hv2v = v2 := headerValue_tryFrom_self v2 hv2v hv2
    rcases hh1 : b1.headers with _ | hs1 <;> simp [hh1] at h2
    have hb1 : b1.headers = some (headerMapInsert hs hn hv) := by
      rw [← h1]
    rw [hb1] at hh1
    obtain rfl : headerMapInsert hs hn hv = hs1 := by
      simpa using hh1
    refine ⟨headerMapInsert (headerMapInsert hs hn hv) hn2v hv2v, ?_, ?_⟩
    · rw [← h2]
    · rw [hcn2, hcn, hveq]
      exact headerMapInsert_filter _ _ _
  · intro b n v h
    simp [ClientBuilder.header, h]
  · intro b n v hn h1 h2
    simp [ClientBuilder.header, h1, h2]

/-- C6 witness: setting `Content-Type` and then `content-type` leaves one
entry for the canonical name `content-type`, holding the second value. -/
theorem c6_header_case_insensitive_last_write_wins_witness :
    ∃ hs2, (ClientBuilder.mk (some .new) none
        (some [("content-type", "application/json")])).headers = some hs2 ∧
      hs2.filter (fun p => p.1 == canonicalHeaderName "Content-Type") =
        [(canonicalHeaderName "Content-Type", "application/json")] :=
  c6_header_case_insensitive_last_write_wins.1
    ⟨some .new, none, some []⟩
    ⟨some .new, none, some [("content-type", "text/plain")]⟩
    ⟨some .new, none, some [("content-type", "application/json")]⟩
    "Content-Type" "text/plain" "content-type" "application/json"
    (by rfl) (by rfl) (by rfl)

/-- The constant base URL (with the v2 path) always parses. -/
theorem base_url_parses :
    Url.parse (BASE_URL ++ V2_PATH) = some ⟨"https://api.play.ht/api/v2"⟩ := by
  decide

/-- The canonical form of the `X-USER-ID` header name. -/
theorem canonical_user_id_header :
    canonicalHeaderName USER_ID_HEADER = "x-user-id" := by
  decide

/-- C7: default construction reads exactly the two variables
`PLAYHT_SECRET_KEY` and `PLAYHT_USER_ID` (environments agreeing on them get
the same builder); with well-formed values, each present variable
contributes its header (`authorization` / `x-user-id`), each absent one is
simply omitted with construction still succeeding, and the `user-agent`
entry is always present. -/
theorem c7_default_reads_two_env_vars (env : Env) :
    (∀ env2 : Env, env "PLAYHT_SECRET_KEY" = env2 "PLAYHT_SECRET_KEY" →
      env "PLAYHT_USER_ID" = env2 "PLAYHT_USER_ID" →
      ClientBuilder.default env = ClientBuilder.default env2) ∧
    (∀ sk uid, env "PLAYHT_SECRET_KEY" = some sk → env "PLAYHT_USER_ID" = some uid →
      HeaderValue.tryFrom sk = some sk → HeaderValue.tryFrom uid = some uid →
      ClientBuilder.default env = some
        { client := some .new, url := Url.parse (BASE_URL ++ V2_PATH),
          headers := some [("authorization", sk), ("x-user-id", uid),
            ("user-agent", CLIENT_USER_AGENT)] }) ∧
    (∀ uid, env "PLAYHT_SECRET_KEY" = none → env "PLAYHT_USER_ID" = some uid →
      HeaderValue.tryFrom uid = some uid →
      ClientBuilder.default env = some
        { client := some .new, url := Url.parse (BASE_URL ++ V2_PATH),
          headers := some [("x-user-id", uid), ("user-agent", CLIENT_USER_AGENT)] }) ∧
    (∀ sk, env "PLAYHT_SECRET_KEY" = some sk → env "PLAYHT_USER_ID" = none →
      HeaderValue.tryFrom sk = some sk →
      ClientBuilder.default env = some
        { client := some .new, url := Url.parse (BASE_URL ++ V2_PATH),
          headers := some [("authorization", sk), ("user-agent", CLIENT_USER_AGENT)] }) ∧
    (env "PLAYHT_SECRET_KEY" = none → env "PLAYHT_USER_ID" = none →
      ClientBuilder.default env = some
        { client := some .new, url := Url.parse (BASE_URL ++ V2_PATH),
          headers := some [("user-agent", CLIENT_USER_AGENT)] }) := by
  refine ⟨?_, ?_, ?_, ?_, ?_⟩
  · intro env2 h1 h2
    unfold ClientBuilder.default
    rw [h1, h2]
  · intro sk uid h1 h2 hv1 hv2
    simp [ClientBuilder.default, appendEnvHeader, h1, h2, hv1, hv2,
      headerMapAppend, canonical_user_id_header]
  · intro uid h1 h2 hv2
    simp [ClientBuilder.default, appendEnvHeader, h1, h2, hv2,
      headerMapAppend, canonical_user_id_header]
  · intro sk h1 h2 hv1
    simp [ClientBuilder.default, appendEnvHeader, h1, h2, hv1, headerMapAppend]
  · intro h1 h2
    simp [ClientBuilder.default, appendEnvHeader, h1, h2, headerMapAppend]

/-- C7 witness: with both credentials present and well-formed, the default
builder carries both credential headers and the user-agent. -/
theorem c7_default_reads_two_env_vars_witness :
    ClientBuilder.default envWithCreds = some
      { client := some .new, url := Url.parse (BASE_URL ++ V2_PATH),
        headers := some [("authorization", "sk-123"), ("x-user-id", "user-42"),
          ("user-agent", CLIENT_USER_AGENT)] } :=
  (c7_default_reads_two_env_vars envWithCreds).2.1 "sk-123" "user-42"
    rfl rfl (by decide) (by decide)

/-- C10: default construction succeeds (no panic) for every environment
whose credential variables are absent or legal header values — and then
`Client::new` also succeeds, since the constant base URL parses and `build`'s
unwraps are unreachable; but a present credential whose value has a byte
illegal in a header value makes default construction (and `Client::new`)
panic instead of returning an error. -/
theorem c10_default_construction_totality (env : Env) :
    (legalHeaderValueOpt (env "PLAYHT_SECRET_KEY") = true →
      legalHeaderValueOpt (env "PLAYHT_USER_ID") = true →
      (∃ b, ClientBuilder.default env = some b) ∧ ∃ c, Client.new env = some c) ∧
    (∀ sk, env "PLAYHT_SECRET_KEY" = some sk → HeaderValue.tryFrom sk = none →
      ClientBuilder.default env = none ∧ Client.new env = none) ∧
    (∀ uid, legalHeaderValueOpt (env "PLAYHT_SECRET_KEY") = true →
      env "PLAYHT_USER_ID" = some uid → HeaderValue.tryFrom uid = none →
      ClientBuilder.default env = none ∧ Client.new env = none) := by
  refine ⟨?_, ?_, ?_⟩
  · intro hsk huid
    obtain ⟨hs1, h1⟩ :
        ∃ hs1, appendEnvHeader [] "authorization" (env "PLAYHT_SECRET_KEY") = some hs1 := by
      rcases h : env "PLAYHT_SECRET_KEY" with _ | sk
      · exact ⟨[], rfl⟩
      · rw [h] at hsk
        simp only [legalHeaderValueOpt, beq_iff_eq] at hsk
        exact ⟨headerMapAppend [] "authorization" sk, by simp [appendEnvHeader, hsk]⟩
    obtain ⟨hs2, h2⟩ : ∃ hs2, appendEnvHeader hs1 (canonicalHeaderName USER_ID_HEADER)
        (env "PLAYHT_USER_ID") = some hs2 := by
      rcases h : env "PLAYHT_USER_ID" with _ | uid
      · exact ⟨hs1, rfl⟩
      · rw [h] at huid
        simp only [legalHeaderValueOpt, beq_iff_eq] at huid
        exact ⟨headerMapAppend hs1 (canonicalHeaderName USER_ID_HEADER) uid,
          by simp [appendEnvHeader, huid]⟩
    constructor
    · exact ⟨⟨some .new, Url.parse (BASE_URL ++ V2_PATH),
        some (headerMapAppend hs2 "user-agent" CLIENT_USER_AGENT)⟩,
        by simp [ClientBuilder.default, h1, h2]⟩
    · refine ⟨⟨.new, ⟨"https://api.play.ht/api/v2"⟩,
        headerMapAppend hs2 "user-agent" CLIENT_USER_AGENT⟩, ?_⟩
      simp [Client.new, ClientBuilder.default, h1, h2, ClientBuilder.build,
        base_url_parses]
  · intro sk h1 h2
    have hd : ClientBuilder.default env = none := by
      simp [ClientBuilder.default, appendEnvHeader, h1, h2]
    exact ⟨hd, by simp [Client.new, hd]⟩
  · intro uid hsk h1 h2
    obtain ⟨hs1, hh1⟩ :
        ∃ hs1, appendEnvHeader [] "authorization" (env "PLAYHT_SECRET_KEY") = some hs1 := by
      rcases h : env "PLAYHT_SECRET_KEY" with _ | sk
      · exact ⟨[], rfl⟩
      · rw [h] at hsk
        simp only [legalHeaderValueOpt, beq_iff_eq] at hsk
        exact ⟨headerMapAppend [] "authorization" sk, by simp [appendEnvHeader, hsk]⟩
    have hd : ClientBuilder.default env = none := by
      simp [ClientBuilder.default, appendEnvHeader, hh1, h1, h2]
    exact ⟨hd, by simp [Client.new, hd]⟩

/-- C10 witness: a well-formed environment lets `Client::new` succeed, while
a secret key containing the control byte `0x01` makes default construction
panic. -/
theorem c10_default_construction_totality_witness :
    (∃ c, Client.new envWithCreds = some c) ∧
    ClientBuilder.default envWithBadSecret = none := by
  constructor
  · exact ((c10_default_construction_totality envWithCreds).1
      (by decide) (by decide)).2
  · exact ((c10_default_construction_totality envWithBadSecret).2.1
      "bad\x01key" rfl (by decide)).1

/-- The relay loop writes each delivered chunk, in order, after the writes
already present, and returns the stream's terminal outcome. -/
theorem relayLoop_eq (cs : List (List Nat)) (t : Option TransportError)
    (w : List (List Nat)) : relayLoop cs t w = (w ++ cs, t) := by
  induction cs generalizing w with
  | nil => simp [relayLoop]
  | cons c cs ih => simp [relayLoop, ih]

/-- C8: over a response body of chunks `cs` (N chunks totaling B bytes), the
push-mode relays hand the writer exactly the chunks `cs` as sequential
writes in arrival order — so the bytes written are their concatenation, B
bytes in total — and when the transport fails after those chunks, they
remain written and the error is returned to the caller. -/
theorem c8_push_relay_chunks (cs : List (List Nat)) (st : Nat)
    (cl : Option String) (e : TransportError) :
    (Client.write_audio_stream ⟨st, cl, cs, none⟩ [] = (cs, none)) ∧
    (Client.write_audio_stream ⟨st, cl, cs, some e⟩ [] = (cs, some e)) ∧
    (Client.write_tts_job_audio_stream ⟨st, cl, cs, none⟩ [] = (cs, none)) ∧
    (Client.write_tts_job_audio_stream ⟨st, cl, cs, some e⟩ [] = (cs, some e)) ∧
    (Client.write_tts_job_progress_stream ⟨st, cl, cs, none⟩ [] = (cs, none)) ∧
    (Client.write_tts_job_progress_stream ⟨st, cl, cs, some e⟩ [] = (cs, some e)) ∧
    (Client.create_tts_job_write_progress_stream ⟨st, cl, cs, none⟩ [] = (cs, .ok cl)) ∧
    (Client.create_tts_job_write_progress_stream ⟨st, cl, cs, some e⟩ [] =
      (cs, .error e)) ∧
    (cs.flatten.length = (cs.map List.length).sum) := by
  refine ⟨?_, ?_, ?_, ?_, ?_, ?_, ?_, ?_, ?_⟩ <;>
    simp [Client.write_audio_stream, Client.write_tts_job_audio_stream,
      Client.write_tts_job_progress_stream,
      Client.create_tts_job_write_progress_stream, relayLoop_eq,
      List.length_flatten]

/-- C9: for an identical response, the pull-mode sequence consists of exactly
the chunks (and terminal outcome) that the push-mode relay writes to its
sink, so concatenating it reproduces the same bytes; and an exhausted
sequence yields no further items. -/
theorem c9_pull_push_same_bytes (resp : StreamingResponse) :
    (Client.stream_audio resp).chunks = (Client.write_audio_stream resp []).1 ∧
    (Client.stream_audio resp).terminal = (Client.write_audio_stream resp []).2 ∧
    (Client.stream_audio resp).chunks.flatten =
      ((Client.write_audio_stream resp []).1).flatten ∧
    (Client.stream_tts_job_progress resp).chunks =
      (Client.write_tts_job_progress_stream resp []).1 ∧
    (Client.stream_tts_job_progress resp).terminal =
      (Client.write_tts_job_progress_stream resp []).2 ∧
    ByteStream.next ⟨[], none⟩ = none := by
  refine ⟨?_, ?_, ?_, ?_, ?_, rfl⟩ <;>
    simp [Client.stream_audio, Client.stream_tts_job_progress,
      Client.write_audio_stream, Client.write_tts_job_progress_stream,
      StreamingResponse.bytes_stream, relayLoop_eq]

end PlayhtRs
